import Mathlib

/-!
Shallow embedding of the Moodify frontend (afrenkai/Moodify).

The embedded code:
* `src/frontend/lib/spotify-api.ts` — the `SpotifyAPI` REST client
  (`generatePlaylist`, `getEmotions`, `healthCheck`, `searchByEmotion`,
  `getRecommendations`, `searchTrack`, `searchTracks`, `searchArtists`,
  `getTrackById`).
* `src/frontend/components/SongAutocomplete.tsx` and the
  `ArtistAutocomplete` component — the debounced-search effect.
* the utility `shuffleArray` and the `MoodCollageDisplay` component.

Modelling conventions: TS numbers are `Rat`; optional TS fields are
`Option`; a rejected promise is `Except.error`; `fetch` is split into the
request the method issues (a call record) and a handler from an abstract
outcome of the HTTP exchange (network error / non-ok response / ok
response with a parsed body) to the method's result.  `Math.random`-based
fresh id suffixes are an oracle `Nat → String` indexed by track position,
and the random choices of the shuffle are an oracle `Nat → Nat`.
-/

/-- JS string truthiness: `s` is falsy exactly when it is `undefined` or
the empty string.  `jsOrElse a b` embeds the JS expression `a || b` for
optional strings. -/
def jsOrElse (a : Option String) (b : Option String) : Option String :=
  match a with
  | some s => if s = "" then b else some s
  | none => b

/-- JS `String.prototype.trim()`: drop whitespace from both ends. -/
def jsTrim (s : String) : String :=
  ⟨((s.data.dropWhile Char.isWhitespace).reverse.dropWhile
      Char.isWhitespace).reverse⟩

/-- `SpotifyTrack` interface from `src/frontend/lib/spotify-api.ts`. -/
structure SpotifyTrack where
  id : String
  name : String
  artist : String
  album : Option String
  preview_url : Option String
  similarity_score : Rat
  external_url : Option String
  duration_ms : Option Rat
  popularity : Option Rat
  album_image : Option String
deriving DecidableEq

/-- An entry of `PlaylistGenerationRequest.songs`. -/
structure SongSeed where
  song_name : String
  artist : String
  spotify_id : Option String
deriving DecidableEq

/-- An entry of `PlaylistGenerationRequest.artists`. -/
structure ArtistSeed where
  artist_name : String
  spotify_id : Option String
deriving DecidableEq

/-- `PlaylistGenerationRequest` interface from `spotify-api.ts`: the body
of the `POST /generate-playlist` request. -/
structure PlaylistGenerationRequest where
  songs : Option (List SongSeed)
  artists : Option (List ArtistSeed)
  emotion : Option (List String)
  num_results : Option Rat
  enrich_with_lyrics : Option Bool
deriving DecidableEq

/-- The keys `JSON.stringify` emits for a `PlaylistGenerationRequest`
(fields whose value is `undefined` are dropped from the JSON body). -/
def requestBodyKeys (r : PlaylistGenerationRequest) : List String :=
  (if r.songs.isSome then ["songs"] else []) ++
  (if r.artists.isSome then ["artists"] else []) ++
  (if r.emotion.isSome then ["emotion"] else []) ++
  (if r.num_results.isSome then ["num_results"] else []) ++
  (if r.enrich_with_lyrics.isSome then ["enrich_with_lyrics"] else [])

/-- One song object of the backend's `/generate-playlist` response body,
with the fields `generatePlaylist` reads from it. -/
structure BackendSong where
  spotify_id : Option String
  song_name : String
  artist : String
  album : Option String
  preview_url : Option String
  similarity_score : Rat
  external_url : Option String
  duration_ms : Option Rat
  popularity : Option Rat
  album_image : Option String
deriving DecidableEq

/-- The parsed body of an ok `/generate-playlist` response. -/
structure BackendPlaylistBody where
  playlist : List BackendSong
  emotion_features : Option (List (String × Rat))
  combined_embedding : Option (List Rat)
deriving DecidableEq

/-- `PlaylistGenerationResponse` interface from `spotify-api.ts`. -/
structure PlaylistGenerationResponse where
  playlist : List SpotifyTrack
  emotion_features : Option (List (String × Rat))
  combined_embedding : Option (List Rat)
deriving DecidableEq

/-- HTTP method of an issued request. -/
inductive HttpMethod
  | GET
  | POST
deriving DecidableEq

/-- The request `generatePlaylist` issues: a POST whose JSON body is the
serialized `PlaylistGenerationRequest`. -/
structure GeneratePlaylistCall where
  method : HttpMethod
  url : String
  body : PlaylistGenerationRequest
deriving DecidableEq

/-- A body-less GET request (used by `getEmotions` and `healthCheck`). -/
structure SimpleGetCall where
  method : HttpMethod
  url : String
deriving DecidableEq

/-- Outcome of the `/generate-playlist` HTTP exchange: the fetch promise
rejects, or the response is not ok (with the optional `detail` field of
the parsed error body), or it is ok with a parsed body. -/
inductive GenerateOutcome
  | netError (msg : String)
  | errResp (detail : Option String)
  | okResp (body : BackendPlaylistBody)
deriving DecidableEq

/-- Outcome of the `GET /emotions` exchange. -/
inductive EmotionsOutcome
  | netError (msg : String)
  | errResp
  | okResp (emotions : List String)
deriving DecidableEq

/-- Outcome of the `GET /health` exchange. -/
inductive HealthOutcome
  | netError (msg : String)
  | errResp
  | okResp (status : String) (version : String)
deriving DecidableEq

/-- `{ status, version }` object returned by `healthCheck`. -/
structure HealthStatus where
  status : String
  version : String
deriving DecidableEq

/-- Raw track object of a `/spotify/search` response, with the fields
`searchTrack`/`searchTracks` read from it. -/
structure RawSearchTrack where
  spotify_id : Option String
  id : Option String
  song_name : Option String
  name : Option String
  artist : String
  album : Option String
  preview_url : Option String
  external_url : Option String
  duration_ms : Option Rat
  popularity : Option Rat
  album_image : Option String
deriving DecidableEq

/-- Outcome of a `GET /spotify/search` exchange; an ok body's `tracks`
field may be absent (`undefined`). -/
inductive TracksOutcome
  | netError (msg : String)
  | errResp
  | okResp (tracks : Option (List RawSearchTrack))
deriving DecidableEq

/-- The track shape `searchTracks` builds from a raw response track; the
`id` and `name` fields come from JS `||` chains and so may be `undefined`
at run time. -/
structure MappedSearchTrack where
  id : Option String
  name : Option String
  artist : String
  album : Option String
  preview_url : Option String
  similarity_score : Rat
  external_url : Option String
  duration_ms : Option Rat
  popularity : Option Rat
  album_image : Option String
deriving DecidableEq

/-- Raw artist object of a `/spotify/artist/search` response. -/
structure RawSearchArtist where
  spotify_id : Option String
  id : Option String
  name : String
  genres : Option (List String)
  popularity : Option Rat
  image_url : Option String
  external_url : Option String
deriving DecidableEq

/-- Outcome of a `GET /spotify/artist/search` exchange. -/
inductive ArtistsOutcome
  | netError (msg : String)
  | errResp
  | okResp (artists : Option (List RawSearchArtist))
deriving DecidableEq

/-- The artist shape `searchArtists` builds from a raw response artist. -/
structure MappedSearchArtist where
  id : Option String
  name : String
  genres : List String
  popularity : Rat
  image_url : Option String
  external_url : Option String
deriving DecidableEq

/-- Outcome of a `GET /spotify/track/:id` exchange, with an abstract
parsed body `β` on success. -/
inductive TrackByIdOutcome (β : Type)
  | netError (msg : String)
  | errResp
  | okResp (body : β)

/-- `true` exactly when the promise modelled by the `Except` rejected. -/
def isRejected {γ : Type} : Except String γ → Bool
  | .error _ => true
  | .ok _ => false

namespace SpotifyAPI

/-- The per-song mapping inside `generatePlaylist`:
`id: song.spotify_id || "track-" + <random suffix>`, `name: song.song_name`,
and the remaining fields copied verbatim.  `rand` is the suffix the
`Math.random` call produces for this song. -/
def trackOfBackendSong (rand : String) (song : BackendSong) : SpotifyTrack :=
  { id := match song.spotify_id with
          | some s => if s = "" then "track-" ++ rand else s
          | none => "track-" ++ rand
    name := song.song_name
    artist := song.artist
    album := song.album
    preview_url := song.preview_url
    similarity_score := song.similarity_score
    external_url := song.external_url
    duration_ms := song.duration_ms
    popularity := song.popularity
    album_image := song.album_image }

/-- `data.playlist.map(...)` of `generatePlaylist`, with the suffix oracle
threaded by position: the song at overall index `k + i` gets suffix
`rand (k + i)`. -/
def mapPlaylist (rand : Nat → String) : Nat → List BackendSong → List SpotifyTrack
  | _, [] => []
  | k, song :: rest => trackOfBackendSong (rand k) song :: mapPlaylist rand (k + 1) rest

/-- The request `generatePlaylist` issues:
`fetch(baseUrl + "/generate-playlist", { method: "POST", body: JSON.stringify(request) })`. -/
def generatePlaylistRequestCall (baseUrl : String)
    (request : PlaylistGenerationRequest) : GeneratePlaylistCall :=
  { method := .POST
    url := baseUrl ++ "/generate-playlist"
    body := request }

/-- Response handling of `generatePlaylist`: a fetch rejection is
re-thrown by the catch block; a non-ok response throws
`error.detail || "Failed to generate playlist"` (also re-thrown); an ok
body is mapped to a `PlaylistGenerationResponse`. -/
def generatePlaylistHandle (rand : Nat → String) :
    GenerateOutcome → Except String PlaylistGenerationResponse
  | .netError msg => .error msg
  | .errResp detail =>
      .error (match detail with
              | some d => if d = "" then "Failed to generate playlist" else d
              | none => "Failed to generate playlist")
  | .okResp body =>
      .ok { playlist := mapPlaylist rand 0 body.playlist
            emotion_features := body.emotion_features
            combined_embedding := body.combined_embedding }

/-- `SpotifyAPI.generatePlaylist`: the issued call paired with the
response handler. -/
def generatePlaylist (rand : Nat → String) (baseUrl : String)
    (request : PlaylistGenerationRequest) :
    GeneratePlaylistCall × (GenerateOutcome → Except String PlaylistGenerationResponse) :=
  (generatePlaylistRequestCall baseUrl request, generatePlaylistHandle rand)

/-- `SpotifyAPI.searchByEmotion`: delegates to `generatePlaylist` with
`{ emotion: [emotion], num_results: numResults }`. -/
def searchByEmotion (rand : Nat → String) (baseUrl : String)
    (emotion : String) (numResults : Rat) :
    GeneratePlaylistCall × (GenerateOutcome → Except String PlaylistGenerationResponse) :=
  generatePlaylist rand baseUrl
    { songs := none
      artists := none
      emotion := some [emotion]
      num_results := some numResults
      enrich_with_lyrics := none }

/-- Seed track argument shape of `getRecommendations`. -/
structure SeedTrack where
  name : String
  artist : String
  spotify_id : Option String
deriving DecidableEq

/-- `SpotifyAPI.getRecommendations`: maps each seed to
`{ song_name, artist, spotify_id }` and passes
`emotion: emotion ? [emotion] : undefined` (JS truthiness: an empty
string is falsy) and `num_results: numResults` to `generatePlaylist`. -/
def getRecommendations (rand : Nat → String) (baseUrl : String)
    (seedTracks : List SeedTrack) (emotion : Option String) (numResults : Rat) :
    GeneratePlaylistCall × (GenerateOutcome → Except String PlaylistGenerationResponse) :=
  generatePlaylist rand baseUrl
    { songs := some (seedTracks.map fun track =>
        { song_name := track.name
          artist := track.artist
          spotify_id := track.spotify_id })
      artists := none
      emotion := match emotion with
                 | some e => if e = "" then none else some [e]
                 | none => none
      num_results := some numResults
      enrich_with_lyrics := none }

/-- The fallback list `getEmotions` returns from its catch block. -/
def defaultEmotions : List String :=
  ["happy", "sad", "energetic", "calm", "angry",
   "melancholic", "hopeful", "romantic", "anxious", "peaceful"]

/-- The request `getEmotions` issues: `fetch(baseUrl + "/emotions")`. -/
def getEmotionsCall (baseUrl : String) : SimpleGetCall :=
  { method := .GET, url := baseUrl ++ "/emotions" }

/-- `SpotifyAPI.getEmotions` response handling: an ok response yields
`data.emotions`; any failure (fetch rejection or non-ok response, whose
thrown error the catch block swallows) yields the hard-coded fallback
list — the promise never rejects. -/
def getEmotions : EmotionsOutcome → Except String (List String)
  | .netError _ => .ok defaultEmotions
  | .errResp => .ok defaultEmotions
  | .okResp emotions => .ok emotions

/-- The request `healthCheck` issues: `fetch(baseUrl + "/health")`. -/
def healthCheckCall (baseUrl : String) : SimpleGetCall :=
  { method := .GET, url := baseUrl ++ "/health" }

/-- `SpotifyAPI.healthCheck`: ok responses resolve to the parsed
`{ status, version }` body; failures are re-thrown by the catch block. -/
def healthCheck : HealthOutcome → Except String HealthStatus
  | .netError msg => .error msg
  | .errResp => .error "Health check failed"
  | .okResp s v => .ok { status := s, version := v }

/-- `SpotifyAPI.searchTrack`: an ok response yields
`data.tracks && data.tracks.length > 0 ? data.tracks[0] : null`;
failures are re-thrown by the catch block. -/
def searchTrack : TracksOutcome → Except String (Option RawSearchTrack)
  | .netError msg => .error msg
  | .errResp => .error "Failed to search track"
  | .okResp tracks =>
      .ok (match tracks with
           | some (t :: _) => some t
           | some [] => none
           | none => none)

/-- The per-track mapping inside `searchTracks`:
`id: track.spotify_id || track.id`, `name: track.song_name || track.name`,
`similarity_score: 0`, other fields copied. -/
def mappedOfRawTrack (track : RawSearchTrack) : MappedSearchTrack :=
  { id := jsOrElse track.spotify_id track.id
    name := jsOrElse track.song_name track.name
    artist := track.artist
    album := track.album
    preview_url := track.preview_url
    similarity_score := 0
    external_url := track.external_url
    duration_ms := track.duration_ms
    popularity := track.popularity
    album_image := track.album_image }

/-- `SpotifyAPI.searchTracks`: ok responses map `data.tracks || []`;
any failure is swallowed by the catch block, which returns `[]` — the
promise never rejects. -/
def searchTracks : TracksOutcome → Except String (List MappedSearchTrack)
  | .netError _ => .ok []
  | .errResp => .ok []
  | .okResp tracks => .ok ((tracks.getD []).map mappedOfRawTrack)

/-- The per-artist mapping inside `searchArtists`:
`id: artist.spotify_id || artist.id`, `genres: artist.genres || []`,
`popularity: artist.popularity || 0`, other fields copied. -/
def mappedOfRawArtist (artist : RawSearchArtist) : MappedSearchArtist :=
  { id := jsOrElse artist.spotify_id artist.id
    name := artist.name
    genres := artist.genres.getD []
    popularity := artist.popularity.getD 0
    image_url := artist.image_url
    external_url := artist.external_url }

/-- `SpotifyAPI.searchArtists`: ok responses map `data.artists || []`;
any failure is swallowed by the catch block, which returns `[]` — the
promise never rejects. -/
def searchArtists : ArtistsOutcome → Except String (List MappedSearchArtist)
  | .netError _ => .ok []
  | .errResp => .ok []
  | .okResp artists => .ok ((artists.getD []).map mappedOfRawArtist)

/-- `SpotifyAPI.getTrackById`: ok responses resolve to the parsed body;
failures are re-thrown by the catch block. -/
def getTrackById {β : Type} : TrackByIdOutcome β → Except String β
  | .netError msg => .error msg
  | .errResp => .error "Failed to get track"
  | .okResp body => .ok body

end SpotifyAPI

/-- `MoodCollage` shape consumed by `MoodCollageDisplay` (interface
documented in the repository's API reference): a base64-encoded PNG, a
list of dominant hex colors, and generation parameters. -/
structure MoodCollage where
  image_base64 : String
  dominant_colors : List String
  visual_params : List (String × String)
  width : Rat
  height : Rat
deriving DecidableEq

/-- What the `MoodCollageDisplay` component renders for the collage
image and the color swatches. -/
structure RenderedCollage where
  imgSrc : String
  imgAlt : String
  swatches : List String
deriving DecidableEq

/-- `MoodCollageDisplay` (mood collage component): the `img` source is
`"data:image/png;base64," + collage.image_base64`, the alt text is
`(emotion || "Mood") + " visualization"`, and the swatches are
`collage.dominant_colors.slice(0, 5)`. -/
def MoodCollageDisplay (collage : MoodCollage) (emotion : Option String) :
    RenderedCollage :=
  { imgSrc := "data:image/png;base64," ++ collage.image_base64
    imgAlt := (match emotion with
               | some e => if e = "" then "Mood" else e
               | none => "Mood") ++ " visualization"
    swatches := collage.dominant_colors.take 5 }

/-- State of an autocomplete component that the debounced-search effect
touches: the input value, the pending `setTimeout` (firing time and the
captured input value), the suggestion list, and its visibility. -/
structure AutocompleteState (α : Type) where
  input : String
  timer : Option (Nat × String)
  suggestions : List α
  showSuggestions : Bool

/-- The `useEffect` body run when `inputValue` changes at time `t` (the
previous effect's cleanup has already cleared any pending timer): with a
trimmed length below 2 the suggestions are cleared and hidden and no
timer is scheduled; otherwise a 300 ms timer capturing the new value is
scheduled. -/
def onInputChange {α : Type} (t : Nat) (v : String) (s : AutocompleteState α) :
    AutocompleteState α :=
  if (jsTrim v).length < 2 then
    { input := v, timer := none, suggestions := [], showSuggestions := false }
  else
    { s with input := v, timer := some (t + 300, v) }

/-- The timer callback: issue the search for the captured query `q` and
install its results (`setSuggestions(results)`,
`setShowSuggestions(results.length > 0)`). -/
def onTimerFire {α : Type} (results : String → List α) (q : String)
    (s : AutocompleteState α) : AutocompleteState α :=
  { s with timer := none
           suggestions := results q
           showSuggestions := decide (0 < (results q).length) }

/-- Run the component against a time-ordered list of input-change events
`(t, v)`.  A pending timer fires before any event at or past its firing
time (the JS event loop runs the callback at its due time); an event
always clears the pending timer (the effect cleanup) before the effect
body runs; a timer still pending after the last event eventually fires.
Returns the list of issued search requests `(fire time, query)` together
with the final state. -/
def autocompleteRun {α : Type} (results : String → List α) :
    AutocompleteState α → List (Nat × String) →
    List (Nat × String) × AutocompleteState α
  | s, [] =>
    match s.timer with
    | some (tf, q) => ([(tf, q)], onTimerFire results q { s with timer := none })
    | none => ([], s)
  | s, (t, v) :: rest =>
    match s.timer with
    | some (tf, q) =>
      if tf ≤ t then
        let fired := onTimerFire results q { s with timer := none }
        let next := autocompleteRun results (onInputChange t v fired) rest
        ((tf, q) :: next.1, next.2)
      else
        autocompleteRun results (onInputChange t v { s with timer := none }) rest
    | none => autocompleteRun results (onInputChange t v s) rest

/-- `SongAutocomplete`'s debounced-search effect, from its initial state
(empty input, no timer, no suggestions); `results q` abstracts the
response of `spotifyAPI.searchTracks(q, undefined, 8)`. -/
def songAutocompleteRun (results : String → List MappedSearchTrack)
    (events : List (Nat × String)) :
    List (Nat × String) × AutocompleteState MappedSearchTrack :=
  autocompleteRun results
    { input := "", timer := none, suggestions := [], showSuggestions := false }
    events

/-- `ArtistAutocomplete`'s debounced-search effect, from its initial
state; `results q` abstracts the response of
`spotifyAPI.searchArtists(q, 8)`. -/
def artistAutocompleteRun (results : String → List MappedSearchArtist)
    (events : List (Nat × String)) :
    List (Nat × String) × AutocompleteState MappedSearchArtist :=
  autocompleteRun results
    { input := "", timer := none, suggestions := [], showSuggestions := false }
    events

/-- An issued search `(fire time, query)` is debounced with respect to
the event list: it stems from some input change `(t, v)` with a trimmed
length of at least 2, fires exactly at `t + 300`, and no further input
change happens strictly before it fires. -/
def debouncedSearch (events : List (Nat × String)) (p : Nat × String) : Prop :=
  ∃ e ∈ events, p.1 = e.1 + 300 ∧ p.2 = e.2 ∧ 2 ≤ (jsTrim e.2).length ∧
    ∀ e' ∈ events, e.1 < e'.1 → p.1 ≤ e'.1

/-- `[shuffled[i], shuffled[j]] = [shuffled[j], shuffled[i]]`: exchange
the elements at positions `i` and `j` (out-of-range indices leave the
list unchanged; in the source both indices are always in range). -/
def swapAt {α : Type} (l : List α) (i j : Nat) : List α :=
  match l[i]?, l[j]? with
  | some x, some y => (l.set i y).set j x
  | some _, none => l
  | none, _ => l

/-- The two arrays of a `shuffleArray` run: the input array and the
spread copy `[...array]` that the loop mutates. -/
structure ShuffleRun (α : Type) where
  source : List α
  shuffled : List α

/-- The `for (let i = shuffled.length - 1; i > 0; i--)` loop of
`shuffleArray`, swapping `shuffled[i]` with `shuffled[j]` where
`j = Math.floor(Math.random() * (i + 1))` is the oracle value
`choice i`; only the `shuffled` component is ever written. -/
def shuffleLoopRun {α : Type} (choice : Nat → Nat) :
    Nat → ShuffleRun α → ShuffleRun α
  | 0, s => s
  | i + 1, s =>
      shuffleLoopRun choice i
        { s with shuffled := swapAt s.shuffled (i + 1) (choice (i + 1)) }

/-- `shuffleArray` from the frontend utilities: copy the input with a
spread, run the Fisher-Yates loop on the copy, return both arrays. -/
def shuffleArray {α : Type} (choice : Nat → Nat) (array : List α) :
    ShuffleRun α :=
  shuffleLoopRun choice (array.length - 1) { source := array, shuffled := array }

/-- Modelled from the spec (claim C8's wording): the request the claim
says `getRecommendations` forwards — seeds mapped to
`{ song_name, artist, spotify_id }`, the emotion wrapped in a singleton
list whenever it is present, `num_results` set. -/
def claimRecommendationRequest (seedTracks : List SpotifyAPI.SeedTrack)
    (emotion : Option String) (numResults : Rat) : PlaylistGenerationRequest :=
  { songs := some (seedTracks.map fun track =>
      { song_name := track.name
        artist := track.artist
        spotify_id := track.spotify_id })
    artists := none
    emotion := emotion.map fun e => [e]
    num_results := some numResults
    enrich_with_lyrics := none }

/-- The amended request mapping for `getRecommendations`: as claim C8
says, except that the emotion is wrapped only when it is present and
non-empty (an empty string is omitted, like an absent one). -/
def amendedRecommendationRequest (seedTracks : List SpotifyAPI.SeedTrack)
    (emotion : Option String) (numResults : Rat) : PlaylistGenerationRequest :=
  { songs := some (seedTracks.map fun track =>
      { song_name := track.name
        artist := track.artist
        spotify_id := track.spotify_id })
    artists := none
    emotion := match emotion with
               | some e => if e = "" then none else some [e]
               | none => none
    num_results := some numResults
    enrich_with_lyrics := none }

/-- The request claim C8 says `searchByEmotion` forwards. -/
def claimSearchByEmotionRequest (emotion : String) (numResults : Rat) :
    PlaylistGenerationRequest :=
  { songs := none
    artists := none
    emotion := some [emotion]
    num_results := some numResults
    enrich_with_lyrics := none }

theorem trackPrefix_ne_empty (r : String) : "track-" ++ r ≠ "" := by
  intro h
  have h2 := congrArg String.length h
  rw [String.length_append] at h2
  have h3 : ("track-").length = 6 := rfl
  have h4 : ("").length = 0 := rfl
  omega

theorem mapPlaylist_length (rand : Nat → String) :
    ∀ (songs : List BackendSong) (k : Nat),
      (SpotifyAPI.mapPlaylist rand k songs).length = songs.length := by
  intro songs
  induction songs with
  | nil => intro k; rfl
  | cons song rest ih =>
      intro k
      simp [SpotifyAPI.mapPlaylist, ih (k + 1)]

theorem mapPlaylist_getElem (rand : Nat → String) :
    ∀ (songs : List BackendSong) (k i : Nat),
      (SpotifyAPI.mapPlaylist rand k songs)[i]? =
        (songs[i]?).map (fun song => SpotifyAPI.trackOfBackendSong (rand (k + i)) song) := by
  intro songs
  induction songs with
  | nil => intro k i; simp [SpotifyAPI.mapPlaylist]
  | cons song rest ih =>
      intro k i
      cases i with
      | zero => simp [SpotifyAPI.mapPlaylist]
      | succ n =>
          have harith : k + 1 + n = k + (n + 1) := by omega
          simp [SpotifyAPI.mapPlaylist, ih (k + 1) n, harith]

/-- Claim C1 counterexample: on a non-ok response, `getEmotions` does not
reject; it substitutes the hard-coded fallback emotion list, and
`searchTracks` likewise substitutes an empty list. -/
theorem claim_C1_counterexample :
    SpotifyAPI.getEmotions EmotionsOutcome.errResp =
      Except.ok SpotifyAPI.defaultEmotions
    ∧ isRejected (SpotifyAPI.getEmotions EmotionsOutcome.errResp) = false
    ∧ SpotifyAPI.searchTracks TracksOutcome.errResp = Except.ok []
    ∧ isRejected (SpotifyAPI.searchTracks TracksOutcome.errResp) = false :=
  ⟨rfl, rfl, rfl, rfl⟩

/-- Claim C1 (amended): `generatePlaylist`, `healthCheck`, `searchTrack`
and `getTrackById` forward any HTTP failure (fetch rejection or non-ok
response) as a rejected promise; `getEmotions` instead recovers with a
fixed fallback list of 10 emotions, and `searchTracks` and
`searchArtists` recover with an empty list. -/
theorem claim_C1_error_forwarding (rand : Nat → String) (msg : String)
    (detail : Option String) (β : Type) :
    isRejected (SpotifyAPI.generatePlaylistHandle rand (GenerateOutcome.netError msg)) = true
    ∧ isRejected (SpotifyAPI.generatePlaylistHandle rand (GenerateOutcome.errResp detail)) = true
    ∧ isRejected (SpotifyAPI.healthCheck (HealthOutcome.netError msg)) = true
    ∧ isRejected (SpotifyAPI.healthCheck HealthOutcome.errResp) = true
    ∧ isRejected (SpotifyAPI.searchTrack (TracksOutcome.netError msg)) = true
    ∧ isRejected (SpotifyAPI.searchTrack TracksOutcome.errResp) = true
    ∧ isRejected (SpotifyAPI.getTrackById (TrackByIdOutcome.netError msg : TrackByIdOutcome β)) = true
    ∧ isRejected (SpotifyAPI.getTrackById (TrackByIdOutcome.errResp : TrackByIdOutcome β)) = true
    ∧ SpotifyAPI.getEmotions (EmotionsOutcome.netError msg) = Except.ok SpotifyAPI.defaultEmotions
    ∧ SpotifyAPI.getEmotions EmotionsOutcome.errResp = Except.ok SpotifyAPI.defaultEmotions
    ∧ SpotifyAPI.defaultEmotions.length = 10
    ∧ SpotifyAPI.searchTracks (TracksOutcome.netError msg) = Except.ok []
    ∧ SpotifyAPI.searchTracks TracksOutcome.errResp = Except.ok []
    ∧ SpotifyAPI.searchArtists (ArtistsOutcome.netError msg) = Except.ok []
    ∧ SpotifyAPI.searchArtists ArtistsOutcome.errResp = Except.ok [] :=
  ⟨rfl, rfl, rfl, rfl, rfl, rfl, rfl, rfl, rfl, rfl, rfl, rfl, rfl, rfl, rfl⟩

/-- Claim C2, evaluated on the code: the serialized request body has an
`enrich_with_lyrics` key and no `include_collage` key, the request is a
POST to `/generate-playlist`, and an ok response is mapped to a record
holding only the playlist, the optional `emotion_features` aggregate and
the optional `combined_embedding` — no mood-collage component exists. -/
theorem claim_C2_code_divergence :
    requestBodyKeys
      { songs := none, artists := none, emotion := some ["happy"],
        num_results := some 10, enrich_with_lyrics := some true } =
      ["emotion", "num_results", "enrich_with_lyrics"]
    ∧ "include_collage" ∉ requestBodyKeys
      { songs := some [{ song_name := "Imagine", artist := "John Lennon",
                         spotify_id := none }],
        artists := none, emotion := some ["peaceful"],
        num_results := some 15, enrich_with_lyrics := some true }
    ∧ (SpotifyAPI.generatePlaylistRequestCall "http://localhost:8000/api/v1"
        { songs := none, artists := none, emotion := some ["happy"],
          num_results := some 10, enrich_with_lyrics := some true }).method =
      HttpMethod.POST
    ∧ (SpotifyAPI.generatePlaylistRequestCall "http://localhost:8000/api/v1"
        { songs := none, artists := none, emotion := some ["happy"],
          num_results := some 10, enrich_with_lyrics := some true }).url =
      "http://localhost:8000/api/v1/generate-playlist"
    ∧ SpotifyAPI.generatePlaylistHandle (fun _ => "r")
        (GenerateOutcome.okResp
          { playlist := [], emotion_features := none, combined_embedding := none }) =
      Except.ok { playlist := [], emotion_features := none, combined_embedding := none } := by
  refine ⟨by decide, by decide, rfl, by decide, rfl⟩

/-- Claim C3: an ok `/generate-playlist` response is mirrored: the
returned playlist has the same length and order as the backend playlist,
position `i` is exactly the mapping of backend song `i`, and the mapping
copies every listed field unchanged (`name` from `song_name`, plus
`artist`, `album`, `preview_url`, `similarity_score`, `external_url`,
`duration_ms`, `popularity`, `album_image`). -/
theorem claim_C3_playlist_mirror (rand : Nat → String) (body : BackendPlaylistBody) :
    SpotifyAPI.generatePlaylistHandle rand (GenerateOutcome.okResp body) =
      Except.ok { playlist := SpotifyAPI.mapPlaylist rand 0 body.playlist
                  emotion_features := body.emotion_features
                  combined_embedding := body.combined_embedding }
    ∧ (SpotifyAPI.mapPlaylist rand 0 body.playlist).length = body.playlist.length
    ∧ (∀ i : Nat, (SpotifyAPI.mapPlaylist rand 0 body.playlist)[i]? =
        (body.playlist[i]?).map
          (fun song => SpotifyAPI.trackOfBackendSong (rand i) song))
    ∧ ∀ (r : String) (song : BackendSong),
        (SpotifyAPI.trackOfBackendSong r song).name = song.song_name
        ∧ (SpotifyAPI.trackOfBackendSong r song).artist = song.artist
        ∧ (SpotifyAPI.trackOfBackendSong r song).album = song.album
        ∧ (SpotifyAPI.trackOfBackendSong r song).preview_url = song.preview_url
        ∧ (SpotifyAPI.trackOfBackendSong r song).similarity_score = song.similarity_score
        ∧ (SpotifyAPI.trackOfBackendSong r song).external_url = song.external_url
        ∧ (SpotifyAPI.trackOfBackendSong r song).duration_ms = song.duration_ms
        ∧ (SpotifyAPI.trackOfBackendSong r song).popularity = song.popularity
        ∧ (SpotifyAPI.trackOfBackendSong r song).album_image = song.album_image := by
  refine ⟨rfl, mapPlaylist_length rand body.playlist 0, ?_, ?_⟩
  · intro i
    simpa using mapPlaylist_getElem rand body.playlist 0 i
  · intro r song
    exact ⟨rfl, rfl, rfl, rfl, rfl, rfl, rfl, rfl, rfl⟩

/-- Claim C4: `getEmotions` issues a GET on the `/emotions` endpoint and
maps every ok response to the `emotions` field of its body. -/
theorem claim_C4_get_emotions (baseUrl : String) (emotions : List String) :
    (SpotifyAPI.getEmotionsCall baseUrl).method = HttpMethod.GET
    ∧ (SpotifyAPI.getEmotionsCall baseUrl).url = baseUrl ++ "/emotions"
    ∧ SpotifyAPI.getEmotions (EmotionsOutcome.okResp emotions) = Except.ok emotions :=
  ⟨rfl, rfl, rfl⟩

/-- Claim C6: `healthCheck` issues a GET on the `/health` endpoint; an ok
response resolves to its `status`/`version` body and any failure leaves
the promise rejected. -/
theorem claim_C6_health_check (baseUrl status version msg : String) :
    (SpotifyAPI.healthCheckCall baseUrl).method = HttpMethod.GET
    ∧ (SpotifyAPI.healthCheckCall baseUrl).url = baseUrl ++ "/health"
    ∧ SpotifyAPI.healthCheck (HealthOutcome.okResp status version) =
        Except.ok { status := status, version := version }
    ∧ isRejected (SpotifyAPI.healthCheck HealthOutcome.errResp) = true
    ∧ isRejected (SpotifyAPI.healthCheck (HealthOutcome.netError msg)) = true :=
  ⟨rfl, rfl, rfl, rfl, rfl⟩

/-- Claim C7: `MoodCollageDisplay` renders the collage as an image whose
source is a PNG data URL built from `image_base64`, and shows exactly the
first `slice(0, 5)` of `dominant_colors` as swatches — never more than
five. -/
theorem claim_C7_mood_collage (collage : MoodCollage) (emotion : Option String) :
    (MoodCollageDisplay collage emotion).imgSrc =
      "data:image/png;base64," ++ collage.image_base64
    ∧ (MoodCollageDisplay collage emotion).swatches =
        collage.dominant_colors.take 5
    ∧ (MoodCollageDisplay collage emotion).swatches.length ≤ 5 := by
  refine ⟨rfl, rfl, ?_⟩
  show (collage.dominant_colors.take 5).length ≤ 5
  rw [List.length_take]
  exact Nat.min_le_left _ _

/-- Claim C9: the id of every generated track is the backend song's
`spotify_id` when that is present and non-empty; otherwise it is the
fresh identifier `"track-" ++ suffix`, which begins with `"track-"`; in
all cases the id is non-empty. -/
theorem claim_C9_track_id (r : String) (song : BackendSong) :
    (∀ s : String, song.spotify_id = some s → s ≠ "" →
      (SpotifyAPI.trackOfBackendSong r song).id = s)
    ∧ ((song.spotify_id = none ∨ song.spotify_id = some "") →
        (SpotifyAPI.trackOfBackendSong r song).id = "track-" ++ r
        ∧ ∃ suffix : String,
            (SpotifyAPI.trackOfBackendSong r song).id = "track-" ++ suffix)
    ∧ (SpotifyAPI.trackOfBackendSong r song).id ≠ "" := by
  refine ⟨?_, ?_, ?_⟩
  · intro s hs hne
    simp [SpotifyAPI.trackOfBackendSong, hs, hne]
  · rintro (h | h) <;> simp [SpotifyAPI.trackOfBackendSong, h]
  · cases hs : song.spotify_id with
    | none => simpa [SpotifyAPI.trackOfBackendSong, hs] using trackPrefix_ne_empty r
    | some s =>
        by_cases hse : s = ""
        · simpa [SpotifyAPI.trackOfBackendSong, hs, hse] using trackPrefix_ne_empty r
        · simp [SpotifyAPI.trackOfBackendSong, hs, hse]

/-- Witness for claim C9 at concrete inputs: a present non-empty
`spotify_id` is kept, and an absent one yields the `track-` fresh id. -/
theorem claim_C9_track_id_witness :
    (SpotifyAPI.trackOfBackendSong "abc123xyz"
      { spotify_id := some "sp1", song_name := "n", artist := "a",
        album := none, preview_url := none, similarity_score := 0,
        external_url := none, duration_ms := none, popularity := none,
        album_image := none }).id = "sp1"
    ∧ (SpotifyAPI.trackOfBackendSong "abc123xyz"
      { spotify_id := none, song_name := "n", artist := "a",
        album := none, preview_url := none, similarity_score := 0,
        external_url := none, duration_ms := none, popularity := none,
        album_image := none }).id = "track-" ++ "abc123xyz" :=
  ⟨(claim_C9_track_id "abc123xyz"
      { spotify_id := some "sp1", song_name := "n", artist := "a",
        album := none, preview_url := none, similarity_score := 0,
        external_url := none, duration_ms := none, popularity := none,
        album_image := none }).1 "sp1" rfl (by decide),
   ((claim_C9_track_id "abc123xyz"
      { spotify_id := none, song_name := "n", artist := "a",
        album := none, preview_url := none, similarity_score := 0,
        external_url := none, duration_ms := none, popularity := none,
        album_image := none }).2.1 (Or.inl rfl)).1⟩

/-- Claim C8 counterexample: with a present but empty emotion string,
`getRecommendations` omits the `emotion` field of the request (JS
truthiness makes `"" ? ... : undefined` take the `undefined` branch),
while the claim's mapping would send `emotion: [""]`; the issued calls —
and hence the method results — differ. -/
theorem claim_C8_counterexample :
    (SpotifyAPI.getRecommendations (fun _ => "r") "http://localhost:8000/api/v1"
      [] (some "") 20).1.body.emotion = none
    ∧ (SpotifyAPI.generatePlaylist (fun _ => "r") "http://localhost:8000/api/v1"
      (claimRecommendationRequest [] (some "") 20)).1.body.emotion = some [""]
    ∧ SpotifyAPI.getRecommendations (fun _ => "r") "http://localhost:8000/api/v1"
        [] (some "") 20 ≠
      SpotifyAPI.generatePlaylist (fun _ => "r") "http://localhost:8000/api/v1"
        (claimRecommendationRequest [] (some "") 20) := by
  refine ⟨rfl, rfl, ?_⟩
  intro h
  have h1 : (none : Option (List String)) = some [""] :=
    congrArg (fun p => p.1.body.emotion) h
  cases h1

/-- Claim C8 (amended): `searchByEmotion emotion n` is exactly
`generatePlaylist` on `{ emotion: [emotion], num_results: n }`, and
`getRecommendations seeds emotion n` is exactly `generatePlaylist` on the
request with the seeds mapped to `{ song_name, artist, spotify_id }`,
`num_results: n`, and the emotion wrapped in a singleton list when it is
present and non-empty, omitted when it is absent or empty. -/
theorem claim_C8_delegation (rand : Nat → String) (baseUrl emotion : String)
    (numResults : Rat) (seeds : List SpotifyAPI.SeedTrack)
    (emo : Option String) :
    SpotifyAPI.searchByEmotion rand baseUrl emotion numResults =
      SpotifyAPI.generatePlaylist rand baseUrl
        (claimSearchByEmotionRequest emotion numResults)
    ∧ SpotifyAPI.getRecommendations rand baseUrl seeds emo numResults =
      SpotifyAPI.generatePlaylist rand baseUrl
        (amendedRecommendationRequest seeds emo numResults) :=
  ⟨rfl, rfl⟩

theorem cons_set_perm {α : Type} :
    ∀ (t : List α) (k : Nat) (y b : α), t[k]? = some y →
      List.Perm (y :: t.set k b) (b :: t) := by
  intro t
  induction t with
  | nil => intro k y b h; simp at h
  | cons c t' ih =>
      intro k y b h
      cases k with
      | zero =>
          simp at h
          subst h
          exact List.Perm.swap b c t'
      | succ n =>
          simp at h
          show List.Perm (y :: c :: t'.set n b) (b :: c :: t')
          exact List.Perm.trans (List.Perm.swap c y _)
            (List.Perm.trans (List.Perm.cons c (ih n y b h))
              (List.Perm.swap b c t'))

theorem set_self_of_getElem {α : Type} :
    ∀ (l : List α) (i : Nat) (x : α), l[i]? = some x → l.set i x = l := by
  intro l
  induction l with
  | nil => intro i x h; simp at h
  | cons a t ih =>
      intro i x h
      cases i with
      | zero => simp at h; subst h; rfl
      | succ n => simp at h; simp [List.set, ih n x h]

theorem set_set_swap_perm {α : Type} :
    ∀ (l : List α) (i j : Nat) (x y : α), i < j →
      l[i]? = some x → l[j]? = some y →
      List.Perm ((l.set i y).set j x) l := by
  intro l
  induction l with
  | nil => intro i j x y _ hx _; simp at hx
  | cons a t ih =>
      intro i j x y hij hx hy
      cases i with
      | zero =>
          cases j with
          | zero => exact absurd hij (Nat.lt_irrefl 0)
          | succ m =>
              simp at hx hy
              subst hx
              show List.Perm (y :: t.set m a) (a :: t)
              exact cons_set_perm t m y a hy
      | succ n =>
          cases j with
          | zero => exact absurd hij (by omega)
          | succ m =>
              simp at hx hy
              have hperm := ih n m x y (by omega) hx hy
              show List.Perm (a :: (t.set n y).set m x) (a :: t)
              exact List.Perm.cons a hperm

theorem swapAt_perm {α : Type} (l : List α) (i j : Nat) :
    List.Perm (swapAt l i j) l := by
  unfold swapAt
  cases hx : l[i]? with
  | none => exact List.Perm.refl l
  | some x =>
      cases hy : l[j]? with
      | none => exact List.Perm.refl l
      | some y =>
          show List.Perm ((l.set i y).set j x) l
          rcases Nat.lt_trichotomy i j with h | h | h
          · exact set_set_swap_perm l i j x y h hx hy
          · subst h
            have hxy : x = y := by rw [hx] at hy; injection hy
            subst hxy
            rw [List.set_set, set_self_of_getElem l i x hx]
          · rw [List.set_comm y x l (by omega)]
            exact set_set_swap_perm l j i y x h hy hx

theorem shuffleLoopRun_source {α : Type} (choice : Nat → Nat) :
    ∀ (n : Nat) (s : ShuffleRun α),
      (shuffleLoopRun choice n s).source = s.source := by
  intro n
  induction n with
  | zero => intro s; rfl
  | succ m ih =>
      intro s
      show (shuffleLoopRun choice m _).source = s.source
      rw [ih]

theorem shuffleLoopRun_perm {α : Type} (choice : Nat → Nat) :
    ∀ (n : Nat) (s : ShuffleRun α),
      List.Perm (shuffleLoopRun choice n s).shuffled s.shuffled := by
  intro n
  induction n with
  | zero => intro s; exact List.Perm.refl _
  | succ m ih =>
      intro s
      exact List.Perm.trans
        (ih { s with shuffled := swapAt s.shuffled (m + 1) (choice (m + 1)) })
        (swapAt_perm s.shuffled (m + 1) (choice (m + 1)))

/-- Claim C10: for every input array and every outcome of the random
index choices (`choice i ≤ i`, the range of
`Math.floor(Math.random() * (i + 1))`), `shuffleArray` leaves the input
array itself unmodified and the returned copy is a permutation of the
input: same length and same multiset of elements. -/
theorem claim_C10_shuffle_perm {α : Type} (choice : Nat → Nat) (array : List α)
    (_hchoice : ∀ i : Nat, choice i ≤ i) :
    (shuffleArray choice array).source = array
    ∧ List.Perm (shuffleArray choice array).shuffled array
    ∧ (shuffleArray choice array).shuffled.length = array.length
    ∧ Multiset.ofList (shuffleArray choice array).shuffled =
        Multiset.ofList array := by
  have hperm : List.Perm (shuffleArray choice array).shuffled array :=
    shuffleLoopRun_perm choice (array.length - 1)
      { source := array, shuffled := array }
  exact ⟨shuffleLoopRun_source choice (array.length - 1) _, hperm,
    hperm.length_eq, Quot.sound hperm⟩

/-- Witness for claim C10 at a concrete array and choice sequence. -/
theorem claim_C10_shuffle_perm_witness :
    (shuffleArray (fun _ => 0) [1, 2, 3]).source = [1, 2, 3]
    ∧ List.Perm (shuffleArray (fun _ => 0) [1, 2, 3]).shuffled [1, 2, 3]
    ∧ (shuffleArray (fun _ => 0) [1, 2, 3]).shuffled.length = 3
    ∧ Multiset.ofList (shuffleArray (fun _ => 0) [1, 2, 3]).shuffled =
        Multiset.ofList [1, 2, 3] :=
  claim_C10_shuffle_perm (fun _ => 0) [1, 2, 3] (fun i => Nat.zero_le i)

theorem autocompleteRun_issued {α : Type} (results : String → List α) :
    ∀ (events : List (Nat × String)) (s : AutocompleteState α),
      List.Pairwise (fun a b => a.1 < b.1) events →
      (∀ tf q, s.timer = some (tf, q) → 2 ≤ (jsTrim q).length) →
      ∀ p ∈ (autocompleteRun results s events).1,
        (s.timer = some p ∧ 2 ≤ (jsTrim p.2).length ∧ ∀ e' ∈ events, p.1 ≤ e'.1)
        ∨ debouncedSearch events p := by
  intro events
  induction events with
  | nil =>
      intro s _ hinv p hp
      cases htimer : s.timer with
      | none => simp [autocompleteRun, htimer] at hp
      | some tq =>
          obtain ⟨tf, q⟩ := tq
          simp [autocompleteRun, htimer] at hp
          subst hp
          exact Or.inl ⟨rfl, hinv tf q htimer, by intro e' he'; cases he'⟩
  | cons e rest ih =>
      obtain ⟨t, v⟩ := e
      intro s hpw hinv p hp
      have hpw' : List.Pairwise (fun a b => a.1 < b.1) rest :=
        (List.pairwise_cons.mp hpw).2
      have hlt : ∀ e' ∈ rest, t < e'.1 := fun e' he' =>
        (List.pairwise_cons.mp hpw).1 e' he'
      have hstep : ∀ (s0 : AutocompleteState α),
          p ∈ (autocompleteRun results (onInputChange t v s0) rest).1 →
          debouncedSearch ((t, v) :: rest) p := by
        intro s0 hmem
        have hinv0 : ∀ tf q, (onInputChange t v s0).timer = some (tf, q) →
            2 ≤ (jsTrim q).length := by
          intro tf q hq
          by_cases hv : (jsTrim v).length < 2
          · have hnone : (onInputChange t v s0).timer = none := by
              simp [onInputChange, hv]
            rw [hnone] at hq
            exact Option.noConfusion hq
          · have hsome : (onInputChange t v s0).timer = some (t + 300, v) := by
              simp [onInputChange, hv]
            rw [hsome] at hq
            have hqv : v = q := congrArg Prod.snd (Option.some.inj hq)
            rw [← hqv]
            exact Nat.le_of_not_lt hv
        rcases ih (onInputChange t v s0) hpw' hinv0 p hmem with ⟨htm, _, hall⟩ | hds
        · by_cases hv : (jsTrim v).length < 2
          · have hnone : (onInputChange t v s0).timer = none := by
              simp [onInputChange, hv]
            rw [hnone] at htm
            exact absurd htm (fun h => Option.noConfusion h)
          · have hsome : (onInputChange t v s0).timer = some (t + 300, v) := by
              simp [onInputChange, hv]
            rw [hsome] at htm
            have hp' : (t + 300, v) = p := Option.some.inj htm
            refine ⟨(t, v), List.mem_cons_self _ _, ?_, ?_,
              Nat.le_of_not_lt hv, ?_⟩
            · rw [← hp']
            · rw [← hp']
            · intro e' he' hlt'
              cases he' with
              | head => exact absurd hlt' (Nat.lt_irrefl t)
              | tail _ htail => exact hall e' htail
        · obtain ⟨e0, he0, h1, h2, h3, h4⟩ := hds
          refine ⟨e0, List.mem_cons_of_mem _ he0, h1, h2, h3, ?_⟩
          intro e' he' hlt'
          cases he' with
          | head => exact absurd (Nat.lt_trans (hlt e0 he0) hlt') (Nat.lt_irrefl t)
          | tail _ htail => exact h4 e' htail hlt'
      cases htimer : s.timer with
      | none =>
          simp only [autocompleteRun, htimer] at hp
          exact Or.inr (hstep s hp)
      | some tq =>
          obtain ⟨tf, q⟩ := tq
          by_cases hfire : tf ≤ t
          · simp only [autocompleteRun, htimer, if_pos hfire] at hp
            rcases List.mem_cons.mp hp with hp1 | hp2
            · subst hp1
              refine Or.inl ⟨rfl, hinv tf q htimer, ?_⟩
              intro e' he'
              cases he' with
              | head => exact hfire
              | tail _ htail => exact Nat.le_trans hfire (Nat.le_of_lt (hlt e' htail))
            · exact Or.inr (hstep _ hp2)
          · simp only [autocompleteRun, htimer, if_neg hfire] at hp
            exact Or.inr (hstep _ hp)

/-- Claim C5: in both autocomplete components every issued search is
debounced — it fires exactly 300 ms after an input change whose value it
carries, with no further change before it fires, and its trimmed query
has at least 2 characters; and an input change whose trimmed value has
fewer than 2 characters issues no search (no timer is scheduled) and
clears and hides the suggestion list instead. -/
theorem claim_C5_debounce
    (trackResults : String → List MappedSearchTrack)
    (artistResults : String → List MappedSearchArtist)
    (events : List (Nat × String))
    (hsorted : List.Pairwise (fun a b => a.1 < b.1) events) :
    (∀ p ∈ (songAutocompleteRun trackResults events).1,
      debouncedSearch events p)
    ∧ (∀ p ∈ (artistAutocompleteRun artistResults events).1,
      debouncedSearch events p)
    ∧ (∀ (t : Nat) (v : String) (s : AutocompleteState MappedSearchTrack),
        (jsTrim v).length < 2 →
        (onInputChange t v s).suggestions = []
        ∧ (onInputChange t v s).showSuggestions = false
        ∧ (onInputChange t v s).timer = none)
    ∧ (∀ (t : Nat) (v : String) (s : AutocompleteState MappedSearchArtist),
        (jsTrim v).length < 2 →
        (onInputChange t v s).suggestions = []
        ∧ (onInputChange t v s).showSuggestions = false
        ∧ (onInputChange t v s).timer = none) := by
  refine ⟨?_, ?_, ?_, ?_⟩
  · intro p hp
    rcases autocompleteRun_issued trackResults events
        { input := "", timer := none, suggestions := [], showSuggestions := false }
        hsorted (fun tf q h => Option.noConfusion h) p hp with ⟨htm, _⟩ | hds
    · exact absurd htm (fun h => Option.noConfusion h)
    · exact hds
  · intro p hp
    rcases autocompleteRun_issued artistResults events
        { input := "", timer := none, suggestions := [], showSuggestions := false }
        hsorted (fun tf q h => Option.noConfusion h) p hp with ⟨htm, _⟩ | hds
    · exact absurd htm (fun h => Option.noConfusion h)
    · exact hds
  · intro t v s hv
    exact ⟨by simp [onInputChange, hv], by simp [onInputChange, hv],
      by simp [onInputChange, hv]⟩
  · intro t v s hv
    exact ⟨by simp [onInputChange, hv], by simp [onInputChange, hv],
      by simp [onInputChange, hv]⟩

/-- Witness for claim C5 on a concrete time-ordered event trace. -/
theorem claim_C5_debounce_witness :
    List.Pairwise (fun (a b : Nat × String) => a.1 < b.1)
      [(0, "a"), (50, "hello"), (1000, "x")]
    ∧ ((∀ p ∈ (songAutocompleteRun (fun _ => [])
          [(0, "a"), (50, "hello"), (1000, "x")]).1,
        debouncedSearch [(0, "a"), (50, "hello"), (1000, "x")] p)
      ∧ (∀ p ∈ (artistAutocompleteRun (fun _ => [])
          [(0, "a"), (50, "hello"), (1000, "x")]).1,
        debouncedSearch [(0, "a"), (50, "hello"), (1000, "x")] p)
      ∧ (∀ (t : Nat) (v : String) (s : AutocompleteState MappedSearchTrack),
          (jsTrim v).length < 2 →
          (onInputChange t v s).suggestions = []
          ∧ (onInputChange t v s).showSuggestions = false
          ∧ (onInputChange t v s).timer = none)
      ∧ (∀ (t : Nat) (v : String) (s : AutocompleteState MappedSearchArtist),
          (jsTrim v).length < 2 →
          (onInputChange t v s).suggestions = []
          ∧ (onInputChange t v s).showSuggestions = false
          ∧ (onInputChange t v s).timer = none)) :=
  ⟨by decide,
   claim_C5_debounce (fun _ => []) (fun _ => [])
     [(0, "a"), (50, "hello"), (1000, "x")] (by decide)⟩
